import Mathlib

/-!
Verification of the libvirt-lxc command module (`src/virt/libvirt_lxc_cmd.py`).

The module's `main` is a linear flow over string parameters:
validate the command string, tokenize it with `shlex.split`, reject more
than one of the guards `creates` / `unless` / `onlyif`, evaluate the
active guard (possibly shelling out to `virsh`), then either skip or run
the main command via `virsh lxc-enter-namespace` and report a result
dictionary.

The embedding below is a direct translation of that flow.  External
effects are abstracted into an environment `Env`:
* `Env.run` stands for `module.run_command` (exit code, stdout, stderr of
  an argument vector; the streams may be `None`, hence `Option String`);
* `Env.parseFilesystems` stands for `xml.etree` parsing of the `dumpxml`
  output down to the `.//devices/filesystem` element list that
  `container_root` iterates over (each element reduced to its optional
  `target`/`source` children and their optional `dir` attributes);
* `Env.pathExists` stands for `os.path.exists`;
* `Env.startStr` / `Env.endStr` / `Env.deltaStr` stand for the formatted
  `datetime` values.

`mainRun` returns the outcome (`fail_json`, `exit_json` or an uncaught
Python exception) together with the trace of argument vectors passed to
`module.run_command`, in order, so that "no external process was
invoked" is expressible as an empty trace.
-/

namespace LibvirtLxcCmd

/-! ## Characters used by the Python string primitives -/

def spC : Char := Char.ofNat 32
def tabC : Char := Char.ofNat 9
def lfC : Char := Char.ofNat 10
def crC : Char := Char.ofNat 13
def vtC : Char := Char.ofNat 11
def ffC : Char := Char.ofNat 12
def bsC : Char := Char.ofNat 92
def sqC : Char := Char.ofNat 39
def dqC : Char := Char.ofNat 34
def slC : Char := Char.ofNat 47

/-! ## Python string primitives used by the module -/

/-- Characters stripped by Python `str.strip()` (ASCII whitespace). -/
def pyWsChar (c : Char) : Bool :=
  c == spC || c == tabC || c == lfC || c == crC || c == vtC || c == ffC

/-- Python `s.strip()`. -/
def pyStrip (s : String) : String :=
  String.mk (((s.toList.dropWhile pyWsChar).reverse.dropWhile pyWsChar).reverse)

/-- Python `s.lstrip('/')` as used in `check_exists`. -/
def lstripSlash (s : String) : String :=
  String.mk (s.toList.dropWhile (fun c => c == slC))

/-- Python `s.rstrip("\r\n")` as used on captured stdout/stderr. -/
def rstripCRLF (s : String) : String :=
  String.mk ((s.toList.reverse.dropWhile (fun c => c == crC || c == lfC)).reverse)

/-- Python `b.startswith('/')`. -/
def startsWithSlash (s : String) : Bool :=
  match s.toList with
  | [] => false
  | c :: _ => c == slC

/-- Python `a.endswith('/')`. -/
def endsWithSlash (s : String) : Bool :=
  match s.toList.reverse with
  | [] => false
  | c :: _ => c == slC

/-- Python `os.path.join(a, b)` for POSIX paths (two arguments). -/
def pyJoin (a b : String) : String :=
  if startsWithSlash b then b
  else if a == "" || endsWithSlash a then a ++ b
  else a ++ "/" ++ b

/-- Python `"%s" % x` on an optional string (`None` renders as "None"). -/
def pyStrOfOpt : Option String → String
  | none => "None"
  | some s => s

/-! ## `shlex.split` (POSIX mode, `whitespace_split=True`, no comments)

Direct translation of the CPython `shlex.read_token` state machine
restricted to the configuration used by `shlex.split`: states are
in-whitespace, in-word, in-single-quote, in-double-quote, and the two
escape states (escaping from a word and escaping inside double quotes).
An unterminated quote or a trailing escape character raises `ValueError`.
-/

/-- Characters in `shlex.whitespace`. -/
def shWsChar (c : Char) : Bool :=
  c == spC || c == tabC || c == crC || c == lfC

inductive ShState where
  | ws | word | sq | dq | escW | escD
deriving DecidableEq

structure ShAcc where
  st : ShState
  tok : String
  quoted : Bool
  out : List String

def shlexStep (a : ShAcc) (c : Char) : ShAcc :=
  match a.st with
  | .ws =>
    if shWsChar c then a
    else if c == bsC then { a with st := .escW }
    else if c == sqC then { a with st := .sq }
    else if c == dqC then { a with st := .dq }
    else { a with st := .word, tok := String.singleton c }
  | .word =>
    if shWsChar c then
      if a.tok != "" || a.quoted then
        { st := .ws, tok := "", quoted := false, out := a.out ++ [a.tok] }
      else { a with st := .ws }
    else if c == sqC then { a with st := .sq }
    else if c == dqC then { a with st := .dq }
    else if c == bsC then { a with st := .escW }
    else { a with tok := a.tok.push c }
  | .sq =>
    if c == sqC then { a with st := .word, quoted := true }
    else { a with tok := a.tok.push c, quoted := true }
  | .dq =>
    if c == dqC then { a with st := .word, quoted := true }
    else if c == bsC then { a with st := .escD, quoted := true }
    else { a with tok := a.tok.push c, quoted := true }
  | .escW => { a with st := .word, tok := a.tok.push c }
  | .escD =>
    if c == dqC || c == bsC then { a with st := .dq, tok := a.tok.push c }
    else { a with st := .dq, tok := (a.tok.push bsC).push c }

def shlexFinish (a : ShAcc) : Except String (List String) :=
  match a.st with
  | .sq | .dq => .error "No closing quotation"
  | .escW | .escD => .error "No escaped character"
  | _ =>
    if a.tok != "" || a.quoted then .ok (a.out ++ [a.tok]) else .ok a.out

/-- Python `shlex.split(s)` (comments disabled, POSIX rules). -/
def shlexSplit (s : String) : Except String (List String) :=
  shlexFinish (s.toList.foldl shlexStep ⟨ShState.ws, "", false, []⟩)

/-! ## The domain-XML filesystem elements seen by `container_root` -/

/-- One `.//devices/filesystem` element, reduced to what `container_root`
reads: the optional `target` child with its optional `dir` attribute, and
the optional `source` child with its optional `dir` attribute. -/
structure FsElem where
  target : Option (Option String)
  source : Option (Option String)
deriving DecidableEq

/-- The loop body of `container_root` over the parsed filesystem list:
for the first element whose `target` child exists and has `dir`
attribute `/`, evaluate `fs.find('source').attrib['dir']` — which raises
`AttributeError` when there is no `source` child and `KeyError` when the
`source` child has no `dir` attribute; after the loop, return `None`. -/
def container_root_fs : List FsElem → Except String (Option String)
  | [] => .ok none
  | fs :: rest =>
    match fs.target with
    | some (some d) =>
      if d == "/" then
        match fs.source with
        | none => .error "AttributeError: NoneType object has no attribute attrib"
        | some none => .error "KeyError: dir"
        | some (some sd) => .ok (some sd)
      else container_root_fs rest
    | _ => container_root_fs rest

/-- Whether a filesystem element is one the `container_root` loop acts
on: it has a `target` child whose `dir` attribute equals `/`. -/
def fsMatchesRoot (fs : FsElem) : Bool :=
  match fs.target with
  | some (some d) => d == "/"
  | _ => false

/-! ## Environment, parameters, result dictionary, outcome -/

structure Env where
  run : List String → Int × Option String × Option String
  parseFilesystems : Option String → List FsElem
  pathExists : String → Bool
  startStr : String
  endStr : String
  deltaStr : String

/-- The module parameters after `AnsibleModule` parsing: `cmd` and
`container` are required, `conn` defaults to `lxc:///`, the three guards
default to `None`. -/
structure Params where
  cmd : String
  container : String
  conn : String
  creates : Option String
  unless_ : Option String
  onlyif : Option String
deriving DecidableEq

/-- The keyword arguments of an `exit_json` call; a field that a given
call site does not pass is `none`. -/
structure ResultDict where
  cmd : Option (List String) := none
  msg : Option String := none
  stdout : Option String := none
  stderr : Option String := none
  rc : Option Int := none
  start : Option String := none
  endt : Option String := none
  delta : Option String := none
  changed : Option Bool := none
deriving DecidableEq

/-- How one invocation of `main` terminates: `module.fail_json` (with its
optional `rc` keyword and message), `module.exit_json` with a result
dictionary, or an uncaught Python exception. -/
inductive Outcome where
  | failJson (rc : Option Int) (msg : String)
  | exitJson (result : ResultDict)
  | pyError (msg : String)
deriving DecidableEq

/-- Python truthiness of an optional string (`None` and `''` are falsy). -/
def truthy : Option String → Bool
  | none => false
  | some s => s != ""

/-- `len([x for x in [creates, unless, onlyif] if x is not None])`. -/
def guardCount (p : Params) : Nat :=
  ([p.creates, p.unless_, p.onlyif].filter Option.isSome).length

def VIRSH : String := "virsh"

/-- The fixed-shape `lxc-enter-namespace` argument vector built at lines
120 and 152 of the source. -/
def virshCmd (conn domain : String) (args : List String) : List String :=
  ["virsh", "-c", conn, "lxc-enter-namespace", "--noseclabel", domain, "--cmd"] ++ args

/-- The `dumpxml` argument vector built in `container_root`. -/
def dumpxmlArgs (conn domain : String) : List String :=
  [VIRSH, "-c", conn, "dumpxml", domain]

/-! ## The module's operations -/

/-- `container_root(domain)`: run `virsh dumpxml`, `fail_json` on a
non-zero exit code, otherwise search the parsed filesystem elements.
The second component is the trace of `module.run_command` invocations. -/
def container_root (env : Env) (conn domain : String) :
    Except Outcome (Option String) × List (List String) :=
  ( if (env.run (dumpxmlArgs conn domain)).1 ≠ 0 then
      .error (.failJson none ("Failed to get domain xml for \x27" ++ domain ++ "\x27: "
        ++ pyStrOfOpt (env.run (dumpxmlArgs conn domain)).2.2))
    else
      match container_root_fs (env.parseFilesystems (env.run (dumpxmlArgs conn domain)).2.1) with
      | .error e => .error (.pyError e)
      | .ok root => .ok root,
    [dumpxmlArgs conn domain] )

/-- `check_exists(creates, domain)`: resolve the container root,
`fail_json` when it is falsy, else test host-side existence of the root
joined with the `creates` path stripped of leading slashes. -/
def check_exists (env : Env) (conn creates domain : String) :
    Except Outcome Bool × List (List String) :=
  ( match (container_root env conn domain).1 with
    | .error o => .error o
    | .ok none =>
      .error (.failJson none ("Failed to get container root for \x27" ++ domain ++ "\x27"))
    | .ok (some r) =>
      if r = "" then
        .error (.failJson none ("Failed to get container root for \x27" ++ domain ++ "\x27"))
      else .ok (env.pathExists (pyJoin r (lstripSlash creates))),
    (container_root env conn domain).2 )

/-- `run_command_in_container(cmd, domain)`: tokenize with `shlex.split`
(whose `ValueError` propagates as `.error`), build the
`lxc-enter-namespace` vector, run it, normalize `None` streams to `''`. -/
def run_command_in_container (env : Env) (conn cmd domain : String) :
    Except String (List String × Int × String × String) :=
  match shlexSplit cmd with
  | .error e => .error e
  | .ok args =>
    .ok (virshCmd conn domain args,
         (env.run (virshCmd conn domain args)).1,
         (env.run (virshCmd conn domain args)).2.1.getD "",
         (env.run (virshCmd conn domain args)).2.2.getD "")

/-- The result dictionary of the final `exit_json` in `main` (the main
command actually ran). -/
def mainResult (env : Env) (va : List String) : ResultDict :=
  { cmd := some va,
    stdout := some (rstripCRLF ((env.run va).2.1.getD "")),
    stderr := some (rstripCRLF ((env.run va).2.2.getD "")),
    rc := some (env.run va).1,
    start := some env.startStr,
    endt := some env.endStr,
    delta := some env.deltaStr,
    changed := some true }

/-- The tail of `main`: run the main command and `exit_json` the result. -/
def runMain (env : Env) (va : List String) : Outcome × List (List String) :=
  (.exitJson (mainResult env va), [va])

/-- The `onlyif` guard block of `main`: when `onlyif` is truthy, run it in
the container and skip (with message, streams, guard argv, changed false)
when its exit code is non-zero. -/
def stageOnlyif (p : Params) (env : Env) (va : List String) :
    Outcome × List (List String) :=
  if truthy p.onlyif then
    match run_command_in_container env p.conn (p.onlyif.getD "") p.container with
    | .error e => (.pyError e, [])
    | .ok g =>
      if g.2.1 ≠ 0 then
        (.exitJson { msg := some ("Skipped since " ++ p.onlyif.getD "" ++ " did not return 0"),
                     stdout := some (rstripCRLF g.2.2.1),
                     stderr := some (rstripCRLF g.2.2.2),
                     cmd := some g.1,
                     changed := some false }, [g.1])
      else ((runMain env va).1, g.1 :: (runMain env va).2)
  else runMain env va

/-- The `unless` guard block of `main`: when `unless` is truthy, run it in
the container and skip when its exit code is zero. -/
def stageUnless (p : Params) (env : Env) (va : List String) :
    Outcome × List (List String) :=
  if truthy p.unless_ then
    match run_command_in_container env p.conn (p.unless_.getD "") p.container with
    | .error e => (.pyError e, [])
    | .ok g =>
      if g.2.1 = 0 then
        (.exitJson { msg := some ("Skipped since " ++ p.unless_.getD "" ++ " return 0"),
                     stdout := some (rstripCRLF g.2.2.1),
                     stderr := some (rstripCRLF g.2.2.2),
                     cmd := some g.1,
                     changed := some false }, [g.1])
      else ((stageOnlyif p env va).1, g.1 :: (stageOnlyif p env va).2)
  else stageOnlyif p env va

/-- The `creates` guard block of `main`: when `creates` is truthy, check
existence in the container and skip (reporting only the main argv and
`changed=False` — no message) when the file exists. -/
def stageCreates (p : Params) (env : Env) (va : List String) :
    Outcome × List (List String) :=
  if truthy p.creates then
    match (check_exists env p.conn (p.creates.getD "") p.container).1 with
    | .error o => (o, (check_exists env p.conn (p.creates.getD "") p.container).2)
    | .ok true =>
      (.exitJson { cmd := some va, changed := some false },
       (check_exists env p.conn (p.creates.getD "") p.container).2)
    | .ok false =>
      ((stageUnless p env va).1,
       (check_exists env p.conn (p.creates.getD "") p.container).2 ++ (stageUnless p env va).2)
  else stageUnless p env va

/-- `main()` after parameter parsing: the empty-command check, the
tokenization of `cmd`, the mutual-exclusion check on the three guards,
then the guard blocks and the final run. -/
def mainRun (p : Params) (env : Env) : Outcome × List (List String) :=
  if pyStrip p.cmd = "" then (.failJson (some 256) "no command given", [])
  else
    match shlexSplit p.cmd with
    | .error e => (.pyError e, [])
    | .ok args =>
      if guardCount p ∈ ([0, 1] : List Nat) then
        stageCreates p env (virshCmd p.conn p.container args)
      else
        (.failJson none "Unless, creates and onlyif can\x27t be given at the same time.", [])

/-! ## Basic lemmas -/

theorem truthy_some_of_ne (u : String) (h : u ≠ "") : truthy (some u) = true := by
  simp [truthy, h]

theorem run_command_in_container_ok (env : Env) (conn c domain : String) (ts : List String)
    (h : shlexSplit c = .ok ts) :
    run_command_in_container env conn c domain =
      .ok (virshCmd conn domain ts,
           (env.run (virshCmd conn domain ts)).1,
           (env.run (virshCmd conn domain ts)).2.1.getD "",
           (env.run (virshCmd conn domain ts)).2.2.getD "") := by
  unfold run_command_in_container
  rw [h]

theorem check_exists_fst_of_root (env : Env) (conn creates domain rt : String)
    (hroot : (container_root env conn domain).1 = .ok (some rt)) (hrt : rt ≠ "") :
    (check_exists env conn creates domain).1 =
      .ok (env.pathExists (pyJoin rt (lstripSlash creates))) := by
  unfold check_exists
  dsimp only
  rw [hroot]
  simp [hrt]

theorem check_exists_snd (env : Env) (conn creates domain : String) :
    (check_exists env conn creates domain).2 = [dumpxmlArgs conn domain] := rfl

/-! ## Reduction lemmas for the `container_root` filesystem loop -/

theorem container_root_fs_cons_skip (fs : FsElem) (rest : List FsElem)
    (hm : fsMatchesRoot fs = false) :
    container_root_fs (fs :: rest) = container_root_fs rest := by
  unfold fsMatchesRoot at hm
  simp only [container_root_fs]
  cases htt : fs.target with
  | none => rfl
  | some t =>
    cases t with
    | none => rfl
    | some d =>
      rw [htt] at hm
      simp only at hm
      simp [hm]

theorem container_root_fs_cons_hit (fs : FsElem) (rest : List FsElem)
    (htd : fs.target = some (some "/")) :
    container_root_fs (fs :: rest) =
      match fs.source with
      | none => .error "AttributeError: NoneType object has no attribute attrib"
      | some none => .error "KeyError: dir"
      | some (some sd) => .ok (some sd) := by
  simp only [container_root_fs]
  rw [htd]
  simp

/-- C10 (amended): the `container_root` filesystem search raises exactly
when the first filesystem in document order whose `target` has `dir='/'`
lacks a `source` child (`AttributeError`) or the `source` child lacks a
`dir` attribute (`KeyError`); otherwise it returns that first
filesystem's source dir, or `None` when no filesystem matches — later
malformed filesystems are never reached. -/
theorem c10_container_root_first_match (fss : List FsElem) :
    (fss.find? fsMatchesRoot = none → container_root_fs fss = .ok none)
    ∧ (∀ fs sd, fss.find? fsMatchesRoot = some fs → fs.source = some (some sd) →
        container_root_fs fss = .ok (some sd))
    ∧ (∀ fs, fss.find? fsMatchesRoot = some fs → fs.source = none →
        container_root_fs fss = .error "AttributeError: NoneType object has no attribute attrib")
    ∧ (∀ fs, fss.find? fsMatchesRoot = some fs → fs.source = some none →
        container_root_fs fss = .error "KeyError: dir") := by
  induction fss with
  | nil =>
    refine ⟨fun _ => rfl, ?_, ?_, ?_⟩ <;> intro fs <;> intros <;> simp_all [List.find?]
  | cons fs rest ih =>
    by_cases hm : fsMatchesRoot fs = true
    · have htd : fs.target = some (some "/") := by
        unfold fsMatchesRoot at hm
        cases htt : fs.target with
        | none => rw [htt] at hm; simp at hm
        | some t =>
          cases t with
          | none => rw [htt] at hm; simp at hm
          | some d =>
            rw [htt] at hm
            simp only at hm
            have hd : d = "/" := by simpa using hm
            rw [hd]
      have hfind : (fs :: rest).find? fsMatchesRoot = some fs :=
        List.find?_cons_of_pos _ hm
      refine ⟨?_, ?_, ?_, ?_⟩
      · intro hn; rw [hfind] at hn; cases hn
      · intro fs' sd hf hs
        rw [hfind] at hf
        injection hf with hf
        subst hf
        rw [container_root_fs_cons_hit fs rest htd, hs]
      · intro fs' hf hs
        rw [hfind] at hf
        injection hf with hf
        subst hf
        rw [container_root_fs_cons_hit fs rest htd, hs]
      · intro fs' hf hs
        rw [hfind] at hf
        injection hf with hf
        subst hf
        rw [container_root_fs_cons_hit fs rest htd, hs]
    · have hm' : fsMatchesRoot fs = false := by simpa using hm
      have hfind : (fs :: rest).find? fsMatchesRoot = rest.find? fsMatchesRoot :=
        List.find?_cons_of_neg _ hm
      have hskip := container_root_fs_cons_skip fs rest hm'
      refine ⟨?_, ?_, ?_, ?_⟩
      · intro hn; rw [hfind] at hn; rw [hskip]; exact ih.1 hn
      · intro fs' sd hf hs; rw [hfind] at hf; rw [hskip]; exact ih.2.1 fs' sd hf hs
      · intro fs' hf hs; rw [hfind] at hf; rw [hskip]; exact ih.2.2.1 fs' hf hs
      · intro fs' hf hs; rw [hfind] at hf; rw [hskip]; exact ih.2.2.2 fs' hf hs

/-- A well-formed root filesystem element as found in a libvirt LXC
domain XML. -/
def fsGood : FsElem := ⟨some (some "/"), some (some "/var/lib/lxc/c1/rootfs")⟩

/-- A filesystem element whose `target` has `dir='/'` but which lacks a
`source` child. -/
def fsNoSource : FsElem := ⟨some (some "/"), none⟩

/-- C10 witness: on a single well-formed root filesystem the search
returns its source dir. -/
theorem c10_container_root_first_match_witness :
    container_root_fs [fsGood] = .ok (some "/var/lib/lxc/c1/rootfs") :=
  (c10_container_root_first_match [fsGood]).2.1 fsGood "/var/lib/lxc/c1/rootfs" rfl rfl

/-- C10 counterexample: a domain XML in which a filesystem with target
dir `/` lacks a `source` element, yet `container_root` raises no
exception and returns an answer — the broken element comes after the
first match, so the claim's precondition reading is false. -/
theorem c10_later_broken_fs_counterexample :
    fsMatchesRoot fsNoSource = true ∧ fsNoSource.source = none ∧
      container_root_fs [fsGood, fsNoSource] = .ok (some "/var/lib/lxc/c1/rootfs") :=
  ⟨rfl, rfl, rfl⟩

/-- C7: when the container root resolves to a truthy path `rt`, the host
path probed by `check_exists` is exactly `rt` joined with the `creates`
value stripped of its leading slashes; concretely, root
`/var/lib/lxc/cont1/rootfs` with `creates="/tmp/x"` probes
`/var/lib/lxc/cont1/rootfs/tmp/x`. -/
theorem c7_creates_path_join (env : Env) (conn domain creates rt : String)
    (hroot : (container_root env conn domain).1 = .ok (some rt)) (hrt : rt ≠ "") :
    (check_exists env conn creates domain).1 =
      .ok (env.pathExists (pyJoin rt (lstripSlash creates)))
    ∧ pyJoin "/var/lib/lxc/cont1/rootfs" (lstripSlash "/tmp/x")
        = "/var/lib/lxc/cont1/rootfs/tmp/x" := by
  exact ⟨check_exists_fst_of_root env conn creates domain rt hroot hrt, by decide⟩

/-- An environment in which `virsh dumpxml cont1` succeeds, the parsed
domain has a single well-formed root filesystem mounted at
`/var/lib/lxc/cont1/rootfs`, and exactly the host file
`/var/lib/lxc/cont1/rootfs/tmp/x` exists. -/
def envRootCont1 : Env :=
  { run := fun a => if a = dumpxmlArgs "lxc:///" "cont1" then (0, some "<domain/>", some "")
      else (1, none, none),
    parseFilesystems := fun _ => [⟨some (some "/"), some (some "/var/lib/lxc/cont1/rootfs")⟩],
    pathExists := fun q => q == "/var/lib/lxc/cont1/rootfs/tmp/x",
    startStr := "s", endStr := "e", deltaStr := "d" }

/-- C7 witness: in `envRootCont1` the probe for `creates="/tmp/x"` in
container `cont1` answers true, because the probed host path is exactly
`/var/lib/lxc/cont1/rootfs/tmp/x` — the only existing file. -/
theorem c7_creates_path_join_witness :
    (check_exists envRootCont1 "lxc:///" "/tmp/x" "cont1").1 =
      .ok (envRootCont1.pathExists (pyJoin "/var/lib/lxc/cont1/rootfs" (lstripSlash "/tmp/x")))
    ∧ envRootCont1.pathExists (pyJoin "/var/lib/lxc/cont1/rootfs" (lstripSlash "/tmp/x")) = true :=
  ⟨(c7_creates_path_join envRootCont1 "lxc:///" "cont1" "/tmp/x" "/var/lib/lxc/cont1/rootfs"
    rfl (by decide)).1, by decide⟩

/-! ## Shape and inversion lemmas for the flow of `main` -/

theorem container_root_error_shape (env : Env) (conn domain : String) (o : Outcome)
    (h : (container_root env conn domain).1 = .error o) :
    (∃ m, o = .failJson none m) ∨ (∃ e, o = .pyError e) := by
  unfold container_root at h
  dsimp only at h
  split at h
  · injection h with h
    exact Or.inl ⟨_, h.symm⟩
  · split at h
    · injection h with h
      exact Or.inr ⟨_, h.symm⟩
    · exact Except.noConfusion h

theorem check_exists_error_shape (env : Env) (conn c domain : String) (o : Outcome)
    (h : (check_exists env conn c domain).1 = .error o) :
    (∃ m, o = .failJson none m) ∨ (∃ e, o = .pyError e) := by
  unfold check_exists at h
  dsimp only at h
  split at h
  · rename_i o' heq
    injection h with h
    subst h
    exact container_root_error_shape env conn domain _ heq
  · injection h with h
    exact Or.inl ⟨_, h.symm⟩
  · rename_i r' heq
    split at h
    · injection h with h
      exact Or.inl ⟨_, h.symm⟩
    · exact Except.noConfusion h

theorem stageOnlyif_exit_inv (p : Params) (env : Env) (va : List String) (r : ResultDict)
    (tr : List (List String)) (h : stageOnlyif p env va = (.exitJson r, tr)) :
    (truthy p.onlyif = true ∧ r.changed = some false ∧ r.msg.isSome = true ∧ r.rc = none)
    ∨ (r = mainResult env va ∧ ∃ t, tr = t ++ [va]) := by
  unfold stageOnlyif at h
  split at h
  · rename_i htr
    split at h
    · rw [Prod.mk.injEq] at h
      exact Outcome.noConfusion h.1
    · rename_i g heq
      split at h
      · rw [Prod.mk.injEq] at h
        obtain ⟨h1, h2⟩ := h
        injection h1 with h1
        subst h1
        exact Or.inl ⟨htr, rfl, rfl, rfl⟩
      · rw [Prod.mk.injEq] at h
        obtain ⟨h1, h2⟩ := h
        unfold runMain at h1 h2
        dsimp only at h1 h2
        injection h1 with h1
        exact Or.inr ⟨h1.symm, [g.1], by rw [← h2]; rfl⟩
  · unfold runMain at h
    rw [Prod.mk.injEq] at h
    obtain ⟨h1, h2⟩ := h
    injection h1 with h1
    exact Or.inr ⟨h1.symm, [], by rw [← h2]; rfl⟩

theorem stageUnless_exit_inv (p : Params) (env : Env) (va : List String) (r : ResultDict)
    (tr : List (List String)) (h : stageUnless p env va = (.exitJson r, tr)) :
    (truthy p.unless_ = true ∧ r.changed = some false ∧ r.msg.isSome = true ∧ r.rc = none)
    ∨ (truthy p.onlyif = true ∧ r.changed = some false ∧ r.msg.isSome = true ∧ r.rc = none)
    ∨ (r = mainResult env va ∧ ∃ t, tr = t ++ [va]) := by
  unfold stageUnless at h
  split at h
  · rename_i htr
    split at h
    · rw [Prod.mk.injEq] at h
      exact Outcome.noConfusion h.1
    · rename_i g heq
      split at h
      · rw [Prod.mk.injEq] at h
        obtain ⟨h1, h2⟩ := h
        injection h1 with h1
        subst h1
        exact Or.inl ⟨htr, rfl, rfl, rfl⟩
      · rw [Prod.mk.injEq] at h
        obtain ⟨h1, h2⟩ := h
        have hso : stageOnlyif p env va = (.exitJson r, (stageOnlyif p env va).2) := by
          rw [← h1]
        rcases stageOnlyif_exit_inv p env va r _ hso with hskip | ⟨hr, t, ht⟩
        · exact Or.inr (Or.inl hskip)
        · refine Or.inr (Or.inr ⟨hr, g.1 :: t, ?_⟩)
          rw [← h2, ht]
          rfl
  · rcases stageOnlyif_exit_inv p env va r tr h with hskip | hmain
    · exact Or.inr (Or.inl hskip)
    · exact Or.inr (Or.inr hmain)

theorem stageCreates_exit_inv (p : Params) (env : Env) (va : List String) (r : ResultDict)
    (tr : List (List String)) (h : stageCreates p env va = (.exitJson r, tr)) :
    (truthy p.creates = true ∧ r = { cmd := some va, changed := some false })
    ∨ (truthy p.unless_ = true ∧ r.changed = some false ∧ r.msg.isSome = true ∧ r.rc = none)
    ∨ (truthy p.onlyif = true ∧ r.changed = some false ∧ r.msg.isSome = true ∧ r.rc = none)
    ∨ (r = mainResult env va ∧ ∃ t, tr = t ++ [va]) := by
  unfold stageCreates at h
  split at h
  · rename_i htr
    split at h
    · rename_i o heq
      rw [Prod.mk.injEq] at h
      rcases check_exists_error_shape env p.conn (p.creates.getD "") p.container o heq with
        ⟨m, hm⟩ | ⟨e, he⟩
      · subst hm; exact Outcome.noConfusion h.1
      · subst he; exact Outcome.noConfusion h.1
    · rw [Prod.mk.injEq] at h
      obtain ⟨h1, h2⟩ := h
      injection h1 with h1
      exact Or.inl ⟨htr, h1.symm⟩
    · rw [Prod.mk.injEq] at h
      obtain ⟨h1, h2⟩ := h
      have hsu : stageUnless p env va = (.exitJson r, (stageUnless p env va).2) := by
        rw [← h1]
      rcases stageUnless_exit_inv p env va r _ hsu with hs | hs | ⟨hr, t, ht⟩
      · exact Or.inr (Or.inl hs)
      · exact Or.inr (Or.inr (Or.inl hs))
      · refine Or.inr (Or.inr (Or.inr ⟨hr,
          (check_exists env p.conn (p.creates.getD "") p.container).2 ++ t, ?_⟩))
        rw [← h2, ht, List.append_assoc]
  · rcases stageUnless_exit_inv p env va r tr h with hs | hs | hmain
    · exact Or.inr (Or.inl hs)
    · exact Or.inr (Or.inr (Or.inl hs))
    · exact Or.inr (Or.inr (Or.inr hmain))

theorem mainRun_exit_inv (p : Params) (env : Env) (r : ResultDict) (tr : List (List String))
    (h : mainRun p env = (.exitJson r, tr)) :
    guardCount p ≤ 1 ∧ ∃ args, shlexSplit p.cmd = .ok args ∧
      ((truthy p.creates = true
          ∧ r = { cmd := some (virshCmd p.conn p.container args), changed := some false })
      ∨ (truthy p.unless_ = true ∧ r.changed = some false ∧ r.msg.isSome = true ∧ r.rc = none)
      ∨ (truthy p.onlyif = true ∧ r.changed = some false ∧ r.msg.isSome = true ∧ r.rc = none)
      ∨ (r = mainResult env (virshCmd p.conn p.container args)
          ∧ ∃ t, tr = t ++ [virshCmd p.conn p.container args])) := by
  unfold mainRun at h
  split at h
  · rw [Prod.mk.injEq] at h
    exact Outcome.noConfusion h.1
  · split at h
    · rw [Prod.mk.injEq] at h
      exact Outcome.noConfusion h.1
    · rename_i args heq
      split at h
      · rename_i hmem
        have hgc : guardCount p ≤ 1 := by
          simp only [List.mem_cons, List.not_mem_nil, or_false] at hmem
          omega
        exact ⟨hgc, args, heq, stageCreates_exit_inv p env _ r tr h⟩
      · rw [Prod.mk.injEq] at h
        exact Outcome.noConfusion h.1

theorem guards_at_most_one (p : Params) (hgc : guardCount p ≤ 1) :
    (truthy p.creates = true → truthy p.unless_ = false ∧ truthy p.onlyif = false)
    ∧ (truthy p.unless_ = true → truthy p.creates = false ∧ truthy p.onlyif = false)
    ∧ (truthy p.onlyif = true → truthy p.creates = false ∧ truthy p.unless_ = false) := by
  unfold guardCount at hgc
  cases hc : p.creates <;> cases hu : p.unless_ <;> cases ho : p.onlyif <;>
    rw [hc, hu, ho] at hgc <;> simp_all [truthy]

/-! ## Claims C1, C6, C8 -/

/-- C1: whenever `main` actually runs the main command (the result has
`changed=true`), the reported `cmd` field is exactly
`[virsh, -c, conn, lxc-enter-namespace, --noseclabel, container, --cmd]`
followed by the `shlex` tokenization of the `cmd` parameter. -/
theorem c1_direct_run_cmd_roundtrip (p : Params) (env : Env) (r : ResultDict)
    (tr : List (List String)) (ts : List String)
    (hts : shlexSplit p.cmd = .ok ts)
    (h : mainRun p env = (.exitJson r, tr))
    (hch : r.changed = some true) :
    r.cmd = some (["virsh", "-c", p.conn, "lxc-enter-namespace", "--noseclabel",
      p.container, "--cmd"] ++ ts) := by
  obtain ⟨hgc, args, hargs, hinv⟩ := mainRun_exit_inv p env r tr h
  have hae : args = ts := by
    rw [hts] at hargs
    injection hargs with hx
    exact hx.symm
  subst hae
  rcases hinv with ⟨_, hr⟩ | ⟨_, hch', _, _⟩ | ⟨_, hch', _, _⟩ | ⟨hr, _⟩
  · rw [hr] at hch
    simp at hch
  · rw [hch] at hch'
    simp at hch'
  · rw [hch] at hch'
    simp at hch'
  · rw [hr]
    rfl

/-- C6: for an `exit_json` outcome the `changed` flag is always set;
`changed=true` reports the main argument vector and its exit code
verbatim in `rc` (whatever that exit code is); `changed=false` happens
only when one of the guards is truthy; and with no truthy guard the
outcome is always `changed=true`. -/
theorem c6_changed_true_rc_verbatim (p : Params) (env : Env) (r : ResultDict)
    (tr : List (List String)) (ts : List String)
    (hts : shlexSplit p.cmd = .ok ts)
    (h : mainRun p env = (.exitJson r, tr)) :
    (r.changed = some true ∨ r.changed = some false)
    ∧ (r.changed = some true →
        r.cmd = some (virshCmd p.conn p.container ts)
        ∧ r.rc = some (env.run (virshCmd p.conn p.container ts)).1)
    ∧ (r.changed = some false →
        truthy p.creates = true ∨ truthy p.unless_ = true ∨ truthy p.onlyif = true)
    ∧ ((truthy p.creates = false ∧ truthy p.unless_ = false ∧ truthy p.onlyif = false) →
        r.changed = some true) := by
  obtain ⟨hgc, args, hargs, hinv⟩ := mainRun_exit_inv p env r tr h
  have hae : args = ts := by
    rw [hts] at hargs
    injection hargs with hx
    exact hx.symm
  subst hae
  rcases hinv with ⟨hcr, hr⟩ | ⟨hun, hch', _, _⟩ | ⟨hon, hch', _, _⟩ | ⟨hr, _⟩
  · subst hr
    refine ⟨Or.inr rfl, ?_, fun _ => Or.inl hcr, ?_⟩
    · intro hx; simp at hx
    · rintro ⟨h1, _, _⟩
      rw [h1] at hcr
      simp at hcr
  · refine ⟨Or.inr hch', ?_, fun _ => Or.inr (Or.inl hun), ?_⟩
    · intro hx
      rw [hx] at hch'
      simp at hch'
    · rintro ⟨_, h2, _⟩
      rw [h2] at hun
      simp at hun
  · refine ⟨Or.inr hch', ?_, fun _ => Or.inr (Or.inr hon), ?_⟩
    · intro hx
      rw [hx] at hch'
      simp at hch'
    · rintro ⟨_, _, h3⟩
      rw [h3] at hon
      simp at hon
  · subst hr
    exact ⟨Or.inl rfl, fun _ => ⟨rfl, rfl⟩, fun hx => by simp [mainResult] at hx,
      fun _ => rfl⟩

/-- C8 (amended): a skip caused by `unless` or `onlyif` always carries a
`msg` field, but the skip caused by `creates` carries none — its
`exit_json` passes only `cmd` and `changed`. -/
theorem c8_skip_msg_only_guard_cmds (p : Params) (env : Env) (r : ResultDict)
    (tr : List (List String))
    (h : mainRun p env = (.exitJson r, tr))
    (hch : r.changed = some false) :
    (truthy p.creates = true → r.msg = none)
    ∧ ((truthy p.unless_ = true ∨ truthy p.onlyif = true) → r.msg.isSome = true) := by
  obtain ⟨hgc, args, hargs, hinv⟩ := mainRun_exit_inv p env r tr h
  obtain ⟨hex1, hex2, hex3⟩ := guards_at_most_one p hgc
  rcases hinv with ⟨hcr, hr⟩ | ⟨hun, _, hmsg, _⟩ | ⟨hon, _, hmsg, _⟩ | ⟨hr, _⟩
  · subst hr
    refine ⟨fun _ => rfl, ?_⟩
    rintro (hx | hx)
    · rw [(hex1 hcr).1] at hx
      simp at hx
    · rw [(hex1 hcr).2] at hx
      simp at hx
  · refine ⟨?_, fun _ => hmsg⟩
    intro hcr
    rw [(hex2 hun).1] at hcr
    simp at hcr
  · refine ⟨?_, fun _ => hmsg⟩
    intro hcr
    rw [(hex3 hon).1] at hcr
    simp at hcr
  · subst hr
    simp [mainResult] at hch

/-! ## Forward computation lemmas for the flow of `main` -/

theorem mainRun_eq_stageCreates (p : Params) (env : Env) (ts : List String)
    (hstrip : pyStrip p.cmd ≠ "") (hts : shlexSplit p.cmd = .ok ts)
    (hgc : guardCount p ≤ 1) :
    mainRun p env = stageCreates p env (virshCmd p.conn p.container ts) := by
  have hmem : guardCount p ∈ ([0, 1] : List Nat) := by
    simp only [List.mem_cons, List.not_mem_nil, or_false]
    omega
  unfold mainRun
  simp only [hts]
  rw [if_neg hstrip, if_pos hmem]

theorem stageCreates_no_guard (p : Params) (env : Env) (va : List String)
    (h : truthy p.creates = false) :
    stageCreates p env va = stageUnless p env va := by
  simp [stageCreates, h]

theorem stageUnless_no_guard (p : Params) (env : Env) (va : List String)
    (h : truthy p.unless_ = false) :
    stageUnless p env va = stageOnlyif p env va := by
  simp [stageUnless, h]

theorem stageOnlyif_no_guard (p : Params) (env : Env) (va : List String)
    (h : truthy p.onlyif = false) :
    stageOnlyif p env va = runMain env va := by
  simp [stageOnlyif, h]

theorem stageUnless_skip_eq (p : Params) (env : Env) (va : List String) (u : String)
    (us : List String) (hu : p.unless_ = some u) (hune : u ≠ "")
    (hus : shlexSplit u = .ok us)
    (hrc : (env.run (virshCmd p.conn p.container us)).1 = 0) :
    stageUnless p env va =
      (.exitJson
        { msg := some ("Skipped since " ++ u ++ " return 0"),
          stdout := some (rstripCRLF ((env.run (virshCmd p.conn p.container us)).2.1.getD "")),
          stderr := some (rstripCRLF ((env.run (virshCmd p.conn p.container us)).2.2.getD "")),
          cmd := some (virshCmd p.conn p.container us),
          changed := some false },
       [virshCmd p.conn p.container us]) := by
  have htr : truthy p.unless_ = true := by
    rw [hu]; exact truthy_some_of_ne u hune
  unfold stageUnless
  rw [if_pos htr, hu, Option.getD_some,
    run_command_in_container_ok env p.conn u p.container us hus]
  dsimp only
  rw [if_pos hrc]

theorem stageUnless_pass_eq (p : Params) (env : Env) (va : List String) (u : String)
    (us : List String) (hu : p.unless_ = some u) (hune : u ≠ "")
    (hus : shlexSplit u = .ok us)
    (hrc : (env.run (virshCmd p.conn p.container us)).1 ≠ 0) :
    stageUnless p env va =
      ((stageOnlyif p env va).1,
       virshCmd p.conn p.container us :: (stageOnlyif p env va).2) := by
  have htr : truthy p.unless_ = true := by
    rw [hu]; exact truthy_some_of_ne u hune
  unfold stageUnless
  rw [if_pos htr, hu, Option.getD_some,
    run_command_in_container_ok env p.conn u p.container us hus]
  dsimp only
  rw [if_neg hrc]

theorem stageOnlyif_skip_eq (p : Params) (env : Env) (va : List String) (o : String)
    (os : List String) (ho : p.onlyif = some o) (hone : o ≠ "")
    (hos : shlexSplit o = .ok os)
    (hrc : (env.run (virshCmd p.conn p.container os)).1 ≠ 0) :
    stageOnlyif p env va =
      (.exitJson
        { msg := some ("Skipped since " ++ o ++ " did not return 0"),
          stdout := some (rstripCRLF ((env.run (virshCmd p.conn p.container os)).2.1.getD "")),
          stderr := some (rstripCRLF ((env.run (virshCmd p.conn p.container os)).2.2.getD "")),
          cmd := some (virshCmd p.conn p.container os),
          changed := some false },
       [virshCmd p.conn p.container os]) := by
  have htr : truthy p.onlyif = true := by
    rw [ho]; exact truthy_some_of_ne o hone
  unfold stageOnlyif
  rw [if_pos htr, ho, Option.getD_some,
    run_command_in_container_ok env p.conn o p.container os hos]
  dsimp only
  rw [if_pos hrc]

theorem stageOnlyif_pass_eq (p : Params) (env : Env) (va : List String) (o : String)
    (os : List String) (ho : p.onlyif = some o) (hone : o ≠ "")
    (hos : shlexSplit o = .ok os)
    (hrc : (env.run (virshCmd p.conn p.container os)).1 = 0) :
    stageOnlyif p env va =
      (.exitJson (mainResult env va), [virshCmd p.conn p.container os, va]) := by
  have htr : truthy p.onlyif = true := by
    rw [ho]; exact truthy_some_of_ne o hone
  unfold stageOnlyif
  rw [if_pos htr, ho, Option.getD_some,
    run_command_in_container_ok env p.conn o p.container os hos]
  dsimp only
  rw [if_neg (fun hn => hn hrc)]
  rfl

theorem stageCreates_skip_eq (p : Params) (env : Env) (va : List String) (s rt : String)
    (hc : p.creates = some s) (hsne : s ≠ "")
    (hroot : (container_root env p.conn p.container).1 = .ok (some rt)) (hrt : rt ≠ "")
    (hex : env.pathExists (pyJoin rt (lstripSlash s)) = true) :
    stageCreates p env va =
      (.exitJson { cmd := some va, changed := some false },
       [dumpxmlArgs p.conn p.container]) := by
  have htr : truthy p.creates = true := by
    rw [hc]; exact truthy_some_of_ne s hsne
  have hce : (check_exists env p.conn (p.creates.getD "") p.container).1 = .ok true := by
    rw [hc, Option.getD_some,
      check_exists_fst_of_root env p.conn s p.container rt hroot hrt, hex]
  unfold stageCreates
  rw [if_pos htr, hce]
  rfl

/-! ## Claims C2, C3, C4, C5, C9 -/

/-- C2 (amended): when `creates` is set to a non-empty string, the
container root resolves to a truthy path, and the derived host path
exists, `main` exits with `changed=False`, reporting the main argument
vector that would have run; the only external process is the `dumpxml`
lookup — the main command is not executed. -/
theorem c2_creates_nonempty_exists_skips (p : Params) (env : Env) (s rt : String)
    (ts : List String)
    (hc : p.creates = some s) (hsne : s ≠ "")
    (hu : p.unless_ = none) (ho : p.onlyif = none)
    (hstrip : pyStrip p.cmd ≠ "") (hts : shlexSplit p.cmd = .ok ts)
    (hroot : (container_root env p.conn p.container).1 = .ok (some rt)) (hrt : rt ≠ "")
    (hex : env.pathExists (pyJoin rt (lstripSlash s)) = true) :
    mainRun p env =
      (.exitJson { cmd := some (virshCmd p.conn p.container ts), changed := some false },
       [dumpxmlArgs p.conn p.container]) := by
  have hgc : guardCount p ≤ 1 := by simp [guardCount, hc, hu, ho]
  rw [mainRun_eq_stageCreates p env ts hstrip hts hgc,
    stageCreates_skip_eq p env _ s rt hc hsne hroot hrt hex]

/-- C3: when only `unless` is set (non-empty) and the guard command run
in the container exits 0, `main` skips: the result carries a skip
message naming the `unless` command, the guard's captured stdout/stderr,
the guard's argument vector in `cmd`, and `changed=False`; the trace
shows the guard was the only external process, so the main command never
ran. -/
theorem c3_unless_zero_skips (p : Params) (env : Env) (u : String) (ts us : List String)
    (hc : p.creates = none) (ho : p.onlyif = none)
    (hu : p.unless_ = some u) (hune : u ≠ "")
    (hstrip : pyStrip p.cmd ≠ "") (hts : shlexSplit p.cmd = .ok ts)
    (hus : shlexSplit u = .ok us)
    (hrc : (env.run (virshCmd p.conn p.container us)).1 = 0) :
    mainRun p env =
      (.exitJson
        { msg := some ("Skipped since " ++ u ++ " return 0"),
          stdout := some (rstripCRLF ((env.run (virshCmd p.conn p.container us)).2.1.getD "")),
          stderr := some (rstripCRLF ((env.run (virshCmd p.conn p.container us)).2.2.getD "")),
          cmd := some (virshCmd p.conn p.container us),
          changed := some false },
       [virshCmd p.conn p.container us]) := by
  have hgc : guardCount p ≤ 1 := by simp [guardCount, hc, hu, ho]
  rw [mainRun_eq_stageCreates p env ts hstrip hts hgc,
    stageCreates_no_guard p env _ (by rw [hc]; rfl),
    stageUnless_skip_eq p env _ u us hu hune hus hrc]

/-- C4: when only `onlyif` is set (non-empty), a non-zero guard exit
skips the main command with a skip message, the guard's output and argv,
and `changed=False`; a zero guard exit runs the main command, the trace
being exactly the guard invocation followed by the main invocation. -/
theorem c4_onlyif_gates_main (p : Params) (env : Env) (o : String) (ts os : List String)
    (hc : p.creates = none) (hu : p.unless_ = none)
    (ho : p.onlyif = some o) (hone : o ≠ "")
    (hstrip : pyStrip p.cmd ≠ "") (hts : shlexSplit p.cmd = .ok ts)
    (hos : shlexSplit o = .ok os) :
    ((env.run (virshCmd p.conn p.container os)).1 ≠ 0 →
      mainRun p env =
        (.exitJson
        { msg := some ("Skipped since " ++ o ++ " did not return 0"),
            stdout := some (rstripCRLF ((env.run (virshCmd p.conn p.container os)).2.1.getD "")),
            stderr := some (rstripCRLF ((env.run (virshCmd p.conn p.container os)).2.2.getD "")),
            cmd := some (virshCmd p.conn p.container os),
            changed := some false },
         [virshCmd p.conn p.container os]))
    ∧ ((env.run (virshCmd p.conn p.container os)).1 = 0 →
      mainRun p env =
        (.exitJson (mainResult env (virshCmd p.conn p.container ts)),
         [virshCmd p.conn p.container os, virshCmd p.conn p.container ts])) := by
  have hgc : guardCount p ≤ 1 := by simp [guardCount, hc, hu, ho]
  have hbase : mainRun p env = stageOnlyif p env (virshCmd p.conn p.container ts) := by
    rw [mainRun_eq_stageCreates p env ts hstrip hts hgc,
      stageCreates_no_guard p env _ (by rw [hc]; rfl),
      stageUnless_no_guard p env _ (by rw [hu]; rfl)]
  constructor
  · intro hrc
    rw [hbase, stageOnlyif_skip_eq p env _ o os ho hone hos hrc]
  · intro hrc
    rw [hbase, stageOnlyif_pass_eq p env _ o os ho hone hos hrc]

/-- C5: with more than one of `creates` / `unless` / `onlyif` supplied,
`main` never invokes an external process and never reaches `exit_json`;
whenever the command string itself passes the earlier checks, the
failure is exactly the mutual-exclusion `fail_json`. -/
theorem c5_conflicting_guards_fail_validation (p : Params) (env : Env)
    (h2 : 2 ≤ guardCount p) :
    (mainRun p env).2 = []
    ∧ (∀ r tr, mainRun p env ≠ (.exitJson r, tr))
    ∧ (∀ ts, pyStrip p.cmd ≠ "" → shlexSplit p.cmd = .ok ts →
        mainRun p env = (.failJson none
          "Unless, creates and onlyif can\x27t be given at the same time.", [])) := by
  have hnm : guardCount p ∉ ([0, 1] : List Nat) := by
    simp only [List.mem_cons, List.not_mem_nil, or_false]
    omega
  refine ⟨?_, ?_, ?_⟩
  · by_cases hs : pyStrip p.cmd = ""
    · unfold mainRun
      rw [if_pos hs]
    · unfold mainRun
      rw [if_neg hs]
      cases hsp : shlexSplit p.cmd with
      | error e => simp only [hsp]
      | ok args =>
        simp only [hsp]
        rw [if_neg hnm]
  · intro r tr hcontra
    obtain ⟨hgc, -⟩ := mainRun_exit_inv p env r tr hcontra
    omega
  · intro ts hstrip hts
    unfold mainRun
    simp only [hts]
    rw [if_neg hstrip, if_neg hnm]

/-- C9: an empty-string guard counts for the mutual-exclusion check (it
is not `None`) but its guard check never runs: `creates=""` together
with `unless` set fails validation with no external process, while
`creates=""` alone runs the main command unconditionally with
`changed=True` and no `dumpxml` lookup. -/
theorem c9_empty_creates_counts_but_not_checked (p : Params) (env : Env)
    (ts : List String) (u : String)
    (hstrip : pyStrip p.cmd ≠ "") (hts : shlexSplit p.cmd = .ok ts)
    (hcr : p.creates = some "") :
    (p.unless_ = some u →
      mainRun p env = (.failJson none
        "Unless, creates and onlyif can\x27t be given at the same time.", []))
    ∧ (p.unless_ = none → p.onlyif = none →
      mainRun p env =
        (.exitJson (mainResult env (virshCmd p.conn p.container ts)),
         [virshCmd p.conn p.container ts])) := by
  constructor
  · intro hu
    have hnm : guardCount p ∉ ([0, 1] : List Nat) := by
      have h2 : 2 ≤ guardCount p := by
        unfold guardCount
        rw [hcr, hu]
        cases p.onlyif <;> simp [List.filter]
      simp only [List.mem_cons, List.not_mem_nil, or_false]
      omega
    unfold mainRun
    simp only [hts]
    rw [if_neg hstrip, if_neg hnm]
  · intro hu ho
    have hgc : guardCount p ≤ 1 := by simp [guardCount, hcr, hu, ho]
    rw [mainRun_eq_stageCreates p env ts hstrip hts hgc,
      stageCreates_no_guard p env _ (by rw [hcr]; rfl),
      stageUnless_no_guard p env _ (by rw [hu]; rfl),
      stageOnlyif_no_guard p env _ (by rw [ho]; rfl)]
    rfl

/-! ## Concrete invocations used by the witnesses and counterexamples -/

/-- A plain invocation with no guard set. -/
def pNoGuard : Params :=
  { cmd := "/bin/date -u", container := "c1", conn := "lxc:///",
    creates := none, unless_ := none, onlyif := none }

/-- An environment in which every command exits 3 with stdout `hello`. -/
def envNoGuard : Env :=
  { run := fun _ => (3, some "hello\n", none),
    parseFilesystems := fun _ => [],
    pathExists := fun _ => false,
    startStr := "2026-01-01 00:00:00.000000",
    endStr := "2026-01-01 00:00:01.000000",
    deltaStr := "0:00:01" }

def vaNoGuard : List String := virshCmd "lxc:///" "c1" ["/bin/date", "-u"]

/-- C1 witness: for the direct run of `/bin/date -u` in container `c1`
the reported argument vector is the fixed prefix followed by the two
tokens. -/
theorem c1_direct_run_cmd_roundtrip_witness :
    (mainResult envNoGuard vaNoGuard).cmd =
      some ["virsh", "-c", "lxc:///", "lxc-enter-namespace", "--noseclabel", "c1",
        "--cmd", "/bin/date", "-u"] :=
  c1_direct_run_cmd_roundtrip pNoGuard envNoGuard (mainResult envNoGuard vaNoGuard)
    [vaNoGuard] ["/bin/date", "-u"] rfl rfl rfl

/-- C6 witness: the main command exited 3, yet the result is
`changed=True` with `rc=3` passed through verbatim. -/
theorem c6_changed_true_rc_verbatim_witness :
    (mainResult envNoGuard vaNoGuard).rc = some 3
    ∧ (mainResult envNoGuard vaNoGuard).changed = some true :=
  ⟨((c6_changed_true_rc_verbatim pNoGuard envNoGuard (mainResult envNoGuard vaNoGuard)
      [vaNoGuard] ["/bin/date", "-u"] rfl rfl).2.1 rfl).2,
   (c6_changed_true_rc_verbatim pNoGuard envNoGuard (mainResult envNoGuard vaNoGuard)
      [vaNoGuard] ["/bin/date", "-u"] rfl rfl).2.2.2 ⟨rfl, rfl, rfl⟩⟩

/-- An invocation guarded by `unless=/bin/true`. -/
def pUnlessSkip : Params :=
  { cmd := "/bin/date", container := "c1", conn := "lxc:///",
    creates := none, unless_ := some "/bin/true", onlyif := none }

/-- An environment in which the `unless` guard exits 0 with stdout
`up`, and anything else exits 9. -/
def envUnlessSkip : Env :=
  { run := fun a =>
      if a = virshCmd "lxc:///" "c1" ["/bin/true"] then (0, some "up\n", some "")
      else (9, some "ran", some "err"),
    parseFilesystems := fun _ => [],
    pathExists := fun _ => false,
    startStr := "s", endStr := "e", deltaStr := "d" }

/-- C3 witness: the zero-exit `unless` guard makes `main` skip, with the
skip message naming `/bin/true`, the guard's streams and argv, and a
trace containing only the guard invocation. -/
theorem c3_unless_zero_skips_witness :
    mainRun pUnlessSkip envUnlessSkip =
      (.exitJson
        { msg := some "Skipped since /bin/true return 0",
          stdout := some "up", stderr := some "",
          cmd := some ["virsh", "-c", "lxc:///", "lxc-enter-namespace", "--noseclabel",
            "c1", "--cmd", "/bin/true"],
          changed := some false },
       [["virsh", "-c", "lxc:///", "lxc-enter-namespace", "--noseclabel",
         "c1", "--cmd", "/bin/true"]]) :=
  c3_unless_zero_skips pUnlessSkip envUnlessSkip "/bin/true" ["/bin/date"] ["/bin/true"]
    rfl rfl rfl (by decide) (by decide) rfl rfl rfl

/-- An invocation guarded by `onlyif=/bin/check`. -/
def pOnlyifSkip : Params :=
  { cmd := "/bin/date", container := "c1", conn := "lxc:///",
    creates := none, unless_ := none, onlyif := some "/bin/check" }

/-- An environment in which the `onlyif` guard exits 2 with a `None`
stdout and CRLF-terminated stderr. -/
def envOnlyifSkip : Env :=
  { run := fun a =>
      if a = virshCmd "lxc:///" "c1" ["/bin/check"] then (2, none, some "nope\r\n")
      else (0, some "ran", some ""),
    parseFilesystems := fun _ => [],
    pathExists := fun _ => false,
    startStr := "s", endStr := "e", deltaStr := "d" }

/-- C4 witness: the failing `onlyif` guard makes `main` skip, with the
guard's `None` stdout normalized to the empty string and its stderr
stripped of the trailing CRLF. -/
theorem c4_onlyif_gates_main_witness :
    mainRun pOnlyifSkip envOnlyifSkip =
      (.exitJson
        { msg := some "Skipped since /bin/check did not return 0",
          stdout := some "", stderr := some "nope",
          cmd := some ["virsh", "-c", "lxc:///", "lxc-enter-namespace", "--noseclabel",
            "c1", "--cmd", "/bin/check"],
          changed := some false },
       [["virsh", "-c", "lxc:///", "lxc-enter-namespace", "--noseclabel",
         "c1", "--cmd", "/bin/check"]]) :=
  (c4_onlyif_gates_main pOnlyifSkip envOnlyifSkip "/bin/check" ["/bin/date"] ["/bin/check"]
    rfl rfl rfl (by decide) (by decide) rfl rfl).1 (by decide)

/-- An invocation guarded by a non-empty `creates`. -/
def pCreatesSkip : Params :=
  { cmd := "/usr/bin/touch /tmp/x", container := "c1", conn := "lxc:///",
    creates := some "/tmp/x", unless_ := none, onlyif := none }

/-- An environment in which `dumpxml` succeeds, the domain has the
well-formed root filesystem `fsGood`, and every host path exists. -/
def envCreatesSkip : Env :=
  { run := fun _ => (0, some "<domain/>", some ""),
    parseFilesystems := fun _ => [fsGood],
    pathExists := fun _ => true,
    startStr := "s", endStr := "e", deltaStr := "d" }

/-- C2 witness: with `creates=/tmp/x` present on the host, `main` skips
with `changed=False`, reporting the main argv that would have run; the
only external call is the `dumpxml` lookup. -/
theorem c2_creates_nonempty_exists_skips_witness :
    mainRun pCreatesSkip envCreatesSkip =
      (.exitJson
        { cmd := some ["virsh", "-c", "lxc:///", "lxc-enter-namespace", "--noseclabel",
            "c1", "--cmd", "/usr/bin/touch", "/tmp/x"],
          changed := some false },
       [["virsh", "-c", "lxc:///", "dumpxml", "c1"]]) :=
  c2_creates_nonempty_exists_skips pCreatesSkip envCreatesSkip "/tmp/x"
    "/var/lib/lxc/c1/rootfs" ["/usr/bin/touch", "/tmp/x"] rfl (by decide) rfl rfl
    (by decide) rfl rfl (by decide) rfl

/-- The same invocation but with `creates=""`. -/
def pCreatesEmpty : Params :=
  { cmd := "/usr/bin/touch /tmp/x", container := "c1", conn := "lxc:///",
    creates := some "", unless_ := none, onlyif := none }

/-- C2 counterexample: `creates` is set (to the empty string) and the
host path derived from the resolvable container root exists, yet `main`
runs the main command and reports `changed=True` — the claim's
skip does not happen, because Python truthiness skips the guard check
for the empty string. -/
theorem c2_creates_empty_counterexample :
    pCreatesEmpty.creates = some ""
    ∧ (container_root envCreatesSkip "lxc:///" "c1").1 = .ok (some "/var/lib/lxc/c1/rootfs")
    ∧ envCreatesSkip.pathExists (pyJoin "/var/lib/lxc/c1/rootfs" (lstripSlash "")) = true
    ∧ mainRun pCreatesEmpty envCreatesSkip =
        (.exitJson (mainResult envCreatesSkip
          (virshCmd "lxc:///" "c1" ["/usr/bin/touch", "/tmp/x"])),
         [virshCmd "lxc:///" "c1" ["/usr/bin/touch", "/tmp/x"]])
    ∧ (mainResult envCreatesSkip
        (virshCmd "lxc:///" "c1" ["/usr/bin/touch", "/tmp/x"])).changed = some true :=
  ⟨rfl, rfl, rfl, rfl, rfl⟩

/-- The result dictionary of the `creates` skip of `pCreatesSkip`. -/
def rCreatesSkip : ResultDict :=
  { cmd := some ["virsh", "-c", "lxc:///", "lxc-enter-namespace", "--noseclabel",
      "c1", "--cmd", "/usr/bin/touch", "/tmp/x"],
    changed := some false }

/-- C8 counterexample: the skip caused by `creates` returns a result with
no `msg` field at all — only `cmd` and `changed` are passed to
`exit_json`. -/
theorem c8_creates_skip_no_msg_counterexample :
    (mainRun pCreatesSkip envCreatesSkip).1 = .exitJson rCreatesSkip
    ∧ rCreatesSkip.changed = some false
    ∧ rCreatesSkip.msg = none :=
  ⟨rfl, rfl, rfl⟩

/-- The result dictionary of the `unless` skip of `pUnlessSkip`. -/
def rUnlessSkip : ResultDict :=
  { msg := some "Skipped since /bin/true return 0",
    stdout := some "up", stderr := some "",
    cmd := some ["virsh", "-c", "lxc:///", "lxc-enter-namespace", "--noseclabel",
      "c1", "--cmd", "/bin/true"],
    changed := some false }

/-- C8 witness: the `unless`-caused skip result does carry a `msg`. -/
theorem c8_skip_msg_only_guard_cmds_witness :
    rUnlessSkip.msg.isSome = true :=
  (c8_skip_msg_only_guard_cmds pUnlessSkip envUnlessSkip rUnlessSkip
    [["virsh", "-c", "lxc:///", "lxc-enter-namespace", "--noseclabel",
      "c1", "--cmd", "/bin/true"]] rfl rfl).2 (Or.inl rfl)

/-- An invocation supplying both `creates` and `unless`. -/
def pBothGuards : Params :=
  { cmd := "/bin/date", container := "c1", conn := "lxc:///",
    creates := some "/tmp/x", unless_ := some "/bin/true", onlyif := none }

/-- C5 witness: with both `creates` and `unless` set, `main` fails with
the mutual-exclusion message and an empty process trace. -/
theorem c5_conflicting_guards_fail_validation_witness :
    mainRun pBothGuards envNoGuard =
      (.failJson none "Unless, creates and onlyif can\x27t be given at the same time.", []) :=
  (c5_conflicting_guards_fail_validation pBothGuards envNoGuard (by decide)).2.2
    ["/bin/date"] (by decide) rfl

/-- An invocation with `creates=""` plus `unless` set. -/
def pEmptyCreatesUnless : Params :=
  { cmd := "/bin/date", container := "c1", conn := "lxc:///",
    creates := some "", unless_ := some "/bin/true", onlyif := none }

/-- An invocation with only `creates=""`. -/
def pEmptyCreatesOnly : Params :=
  { cmd := "/bin/date", container := "c1", conn := "lxc:///",
    creates := some "", unless_ := none, onlyif := none }

/-- C9 witness: `creates=""` with `unless` set fails validation with no
external call, while `creates=""` alone runs the main command directly
(no `dumpxml`, `changed=True`). -/
theorem c9_empty_creates_counts_but_not_checked_witness :
    mainRun pEmptyCreatesUnless envNoGuard =
      (.failJson none "Unless, creates and onlyif can\x27t be given at the same time.", [])
    ∧ mainRun pEmptyCreatesOnly envNoGuard =
      (.exitJson (mainResult envNoGuard (virshCmd "lxc:///" "c1" ["/bin/date"])),
       [virshCmd "lxc:///" "c1" ["/bin/date"]]) :=
  ⟨(c9_empty_creates_counts_but_not_checked pEmptyCreatesUnless envNoGuard ["/bin/date"]
      "/bin/true" (by decide) rfl rfl).1 rfl,
   (c9_empty_creates_counts_but_not_checked pEmptyCreatesOnly envNoGuard ["/bin/date"]
      "/bin/ignored" (by decide) rfl rfl).2 rfl rfl⟩

end LibvirtLxcCmd
